import Mathlib

/-!
Verification of the discord-manager utility (src/main.rs) against its
specification. The program issues three HTTP requests (validate token,
list guilds, leave guild) and drives an interactive confirmation loop.
The network is abstracted: each embedded function takes the HTTP outcome
(a transport error or a `Response`) as an argument, since the credential
and URL only parameterize the request, never the handling of the reply.
-/

/-- Shallow embedding of `serde_json::Value`. Numbers are modelled as
integers (no claim involves numeric fields). An object is a finite list
of key/value pairs with distinct keys, as produced by serde's parser. -/
inductive Json where
  | null
  | bool (b : Bool)
  | num (n : Int)
  | str (s : String)
  | arr (elems : List Json)
  | obj (fields : List (String × Json))

/-- Hex digit used by serde_json's `\u00XX` escapes (lowercase). -/
def hexDigit (n : Nat) : Char :=
  if n < 10 then Char.ofNat (48 + n) else Char.ofNat (87 + n)

/-- Escaping of one character inside a JSON string, following
serde_json's `Display`: quote, backslash, the short control escapes, and
`\u00XX` for the remaining control characters. -/
def jsonEscape (c : Char) : String :=
  if c = '"' then "\\\""
  else if c = '\\' then "\\\\"
  else if c = '\x08' then "\\b"
  else if c = '\t' then "\\t"
  else if c = '\n' then "\\n"
  else if c = '\x0c' then "\\f"
  else if c = '\r' then "\\r"
  else if c.toNat < 32 then
    "\\u00" ++ String.singleton (hexDigit (c.toNat / 16))
      ++ String.singleton (hexDigit (c.toNat % 16))
  else String.singleton c

/-- A JSON string literal as serde_json's `Display` prints it. -/
def renderString (s : String) : String :=
  "\"" ++ String.join (s.toList.map jsonEscape) ++ "\""

mutual

/-- Compact rendering of a `Json` value, following the `Display`
implementation of `serde_json::Value` (used by the `info!` format string
in `check_discord_token`). In particular `null` renders as `null`. -/
def Json.render : Json → String
  | .null => "null"
  | .bool b => cond b "true" "false"
  | .num n => toString n
  | .str s => renderString s
  | .arr xs => "[" ++ renderArr xs ++ "]"
  | .obj fs => "\x7b" ++ renderObj fs ++ "\x7d"

/-- Comma-separated rendering of array elements. -/
def renderArr : List Json → String
  | [] => ""
  | [x] => Json.render x
  | x :: y :: xs => Json.render x ++ "," ++ renderArr (y :: xs)

/-- Comma-separated rendering of object members. -/
def renderObj : List (String × Json) → String
  | [] => ""
  | [(k, v)] => renderString k ++ ":" ++ Json.render v
  | (k, v) :: p :: xs => renderString k ++ ":" ++ Json.render v ++ "," ++ renderObj (p :: xs)

end

/-- Indexing `value[key]` on a `serde_json::Value` with a string key:
the member's value when the receiver is an object containing the key,
and `Null` otherwise (serde_json's `Index<&str>` impl). -/
def Json.index : Json → String → Json
  | .obj fields, key =>
    match fields.lookup key with
    | some v => v
    | none => .null
  | _, _ => .null

/-- `Value::as_str`: `some` for a JSON string, `none` otherwise. -/
def Json.asStr : Json → Option String
  | .str s => some s
  | _ => none

/-- The `Guild` struct of main.rs: an id and a display name. -/
structure Guild where
  id : String
  name : String
deriving DecidableEq, Repr

/-- `Guild::new`. -/
def Guild.new (id : String) (name : String) : Guild := ⟨id, name⟩

/-- An HTTP response as the program consumes it: the status code, the
body parsed as JSON when it parses (`none` when the body is absent,
empty, or not valid JSON — `response.json()` then fails), and the raw
body text as `response.text()` returns it. -/
structure Response where
  status : Nat
  jsonBody : Option Json
  textBody : String

/-- The outcome of sending a request: a response, or a transport error
(DNS, TLS, connection reset, timeout) carrying its description. -/
def HttpOutcome : Type := Except String Response

/-- `StatusCode::is_success` from reqwest/http: the 2xx class. -/
def is_success (status : Nat) : Bool :=
  decide (200 ≤ status ∧ status ≤ 299)

/-- `check_discord_token` (main.rs lines 4-36), from the point where the
response arrives. Returns the boolean the function returns together with
the log line it emits. On a 2xx status the body is parsed as a `Value`
(`unwrap_or_default` gives `Null` on parse failure) and the welcome line
interpolates `json["username"]` and `json["id"]` via `Display`. -/
def check_discord_token (response : HttpOutcome) : Bool × String :=
  match response with
  | .ok r =>
    if is_success r.status then
      let json := r.jsonBody.getD .null
      (true, "Token is valid! Welcome back " ++ (json.index "username").render
        ++ " (" ++ (json.index "id").render ++ ")")
    else
      (false, "Token is invalid: " ++ r.textBody)
  | .error e => (false, "Failed to check token: " ++ e)

/-- `get_guilds` (main.rs lines 50-89), from the point where the response
arrives. On a 2xx status the body is parsed as `Vec<Value>`
(`unwrap_or_default` gives the empty vector unless the body is a JSON
array) and each element is mapped to a `Guild` via `as_str()` with empty
string default; otherwise the result is the empty vector. -/
def get_guilds (response : HttpOutcome) : List Guild :=
  match response with
  | .ok r =>
    if is_success r.status then
      let json : List Json :=
        match r.jsonBody with
        | some (.arr xs) => xs
        | _ => []
      json.map (fun guild =>
        Guild.new ((guild.index "id").asStr.getD "")
          ((guild.index "name").asStr.getD ""))
    else []
  | .error _ => []

/-- `leave_guild` (main.rs lines 91-123), from the point where the
response arrives. Returns the boolean result and the log line. Success
is exactly `StatusCode::NO_CONTENT` (204). -/
def leave_guild (guild_id : String) (response : HttpOutcome) : Bool × String :=
  match response with
  | .ok r =>
    if r.status = 204 then
      (true, "Successfully left guild " ++ guild_id ++ "!")
    else
      (false, "Failed to leave guild " ++ guild_id ++ ": " ++ r.textBody)
  | .error e => (false, "Failed to leave guild " ++ guild_id ++ ": " ++ e)

/-- Rust's `char::is_whitespace`: the Unicode `White_Space` property. -/
def isRustWhitespace (c : Char) : Bool :=
  decide ((0x09 ≤ c.toNat ∧ c.toNat ≤ 0x0D) ∨ c.toNat = 0x20 ∨ c.toNat = 0x85 ∨
    c.toNat = 0xA0 ∨ c.toNat = 0x1680 ∨ (0x2000 ≤ c.toNat ∧ c.toNat ≤ 0x200A) ∨
    c.toNat = 0x2028 ∨ c.toNat = 0x2029 ∨ c.toNat = 0x202F ∨ c.toNat = 0x205F ∨
    c.toNat = 0x3000)

/-- Drop the leading whitespace characters of a character list. -/
def dropLeadingWs : List Char → List Char
  | [] => []
  | c :: cs => if isRustWhitespace c then dropLeadingWs cs else c :: cs

/-- Rust's `str::trim`: the string with leading and trailing Unicode
whitespace removed. -/
def rustTrim (s : String) : String :=
  ⟨(dropLeadingWs (dropLeadingWs s.data).reverse).reverse⟩

/-- A state of the interactive session loop of `main` (lines 151-194):
the top-level menu, the per-guild confirmation loop (the listed guilds
together with the index of the guild currently being confirmed), and the
terminal state reached by menu option "2". -/
inductive SessionState where
  | mainMenu
  | confirming (guilds : List Guild) (i : Nat)
  | exited
deriving DecidableEq, Repr

/-- The outcomes of the network calls a session step may perform: the
guild list that `get_guilds` returns when menu option "1" is chosen, and
the result of `leave_guild` for a given guild id. -/
structure Env where
  listResult : List Guild
  leaveResult : String → Bool

/-- One iteration of the session loop of `main` on one line of console
input: the state read off the code's control flow, the line matched
after `trim()` exactly as the two `match input.trim()` blocks do, and the
`println!` notices emitted. On menu input "1" an empty listing prints
"No guilds found." and stays at the menu; otherwise confirmation starts
at guild 0. In the confirmation state the `for` loop advances to the
next guild after every arm of the match — including the `_` arm, which
only prints the invalid-input notice — and returns to the menu after the
last guild. -/
def sessionStep (env : Env) : SessionState → String → SessionState × List String
  | .mainMenu, input =>
    match rustTrim input with
    | "1" =>
      if env.listResult.isEmpty then (.mainMenu, ["No guilds found."])
      else (.confirming env.listResult 0, [])
    | "2" => (.exited, [])
    | _ => (.mainMenu, ["Invalid input! Please try again."])
  | .confirming guilds i, input =>
    match guilds[i]? with
    | some guild =>
      let next := if i + 1 < guilds.length
        then SessionState.confirming guilds (i + 1) else SessionState.mainMenu
      match rustTrim input with
      | "y" =>
        if env.leaveResult guild.id then
          (next, ["Successfully left guild " ++ guild.name ++ "!"])
        else
          (next, ["Failed to leave guild " ++ guild.name ++ "!"])
      | "n" => (next, ["Skipped leaving guild " ++ guild.name ++ "."])
      | _ => (next, ["Invalid input! Please try again."])
    | none => (.mainMenu, [])
  | .exited, _ => (.exited, [])

/-- The credential as `main` loads it (lines 134-136): the first
positional command-line argument when present, otherwise the contents of
`token.txt` (`read_to_string(...).unwrap_or_default()`, so a failed read
yields the empty string). -/
def loadToken (arg1 : Option String) (fileContents : Option String) : String :=
  match arg1 with
  | some a => a
  | none => fileContents.getD ""

/-- What startup produced: the exit code when `std::process::exit` ran
(`none` when startup proceeded to the session loop), the number of HTTP
requests the process issued up to that point (`exit` terminates the
process, so on an exit path this is the total over the whole run), and
the validated token handed to the session loop. -/
structure StartupOutcome where
  exitCode : Option Nat
  requests : Nat
  token : Option String
deriving DecidableEq, Repr

/-- The startup sequence of `main` (lines 134-147): load the token, exit
with code 1 before any request when it is empty after trimming,
otherwise issue the single validation request and either proceed with
the trimmed token or exit with code 1. `validateResp` is the outcome of
that request. -/
def runStartup (arg1 : Option String) (fileContents : Option String)
    (validateResp : HttpOutcome) : StartupOutcome :=
  let token := loadToken arg1 fileContents
  if rustTrim token = "" then
    ⟨some 1, 0, none⟩
  else if (check_discord_token validateResp).fst then
    ⟨none, 1, some (rustTrim token)⟩
  else
    ⟨some 1, 1, none⟩

/-- C1: `leave_guild` returns true exactly when the HTTP status is 204;
any other status (other 2xx codes included) and any transport error make
it return false. -/
theorem leave_guild_success_iff_204 (gid : String) :
    (∀ r : Response, (leave_guild gid (Except.ok r)).fst = true ↔ r.status = 204) ∧
    (∀ r : Response, r.status ≠ 204 → (leave_guild gid (Except.ok r)).fst = false) ∧
    (∀ e : String, (leave_guild gid (Except.error e)).fst = false) := by
  refine ⟨fun r => ?_, fun r h => ?_, fun e => rfl⟩
  · constructor
    · intro h
      by_contra hne
      simp [leave_guild, hne] at h
    · intro h
      simp [leave_guild, h]
  · simp [leave_guild, h]

/-- Witness for C1: a 204 response yields true; a 200 response with a
body and a transport error both yield false. -/
theorem leave_guild_success_iff_204_witness :
    (leave_guild "42" (Except.ok ⟨204, none, ""⟩)).fst = true ∧
    (leave_guild "42" (Except.ok ⟨200, none, "some body"⟩)).fst = false ∧
    (leave_guild "42" (Except.error "timeout")).fst = false :=
  ⟨((leave_guild_success_iff_204 "42").1 ⟨204, none, ""⟩).mpr rfl,
   (leave_guild_success_iff_204 "42").2.1 ⟨200, none, "some body"⟩ (by decide),
   (leave_guild_success_iff_204 "42").2.2 "timeout"⟩

/-- C4: on a 2xx response whose body is a JSON array, `get_guilds` maps
every element, in order, to a Guild whose id and name are the element's
string fields with empty-string defaults; in particular the result has
exactly as many records as the array has elements and no element is
dropped. -/
theorem get_guilds_maps_every_element (status : Nat) (xs : List Json) (txt : String)
    (h1 : 200 ≤ status) (h2 : status ≤ 299) :
    get_guilds (Except.ok ⟨status, some (Json.arr xs), txt⟩)
      = xs.map (fun j => Guild.new ((j.index "id").asStr.getD "")
          ((j.index "name").asStr.getD "")) ∧
    (get_guilds (Except.ok ⟨status, some (Json.arr xs), txt⟩)).length = xs.length := by
  have hs : is_success status = true := by
    simp only [is_success, decide_eq_true_eq]
    omega
  refine ⟨?_, ?_⟩ <;> simp [get_guilds, hs]

/-- Witness for C4: a 200 response with a two-element array, the second
element lacking both fields, yields two Guilds, the second blank. -/
theorem get_guilds_maps_every_element_witness :
    get_guilds (Except.ok ⟨200,
        some (Json.arr [Json.obj [("id", Json.str "1"), ("name", Json.str "G1")],
          Json.obj []]), ""⟩)
      = [Guild.new "1" "G1", Guild.new "" ""] := by
  have h := get_guilds_maps_every_element 200
    [Json.obj [("id", Json.str "1"), ("name", Json.str "G1")], Json.obj []] ""
    (by decide) (by decide)
  rw [h.1]
  rfl

/-- C5: `get_guilds` never fails outward — every non-2xx response and
every transport error yield the empty list, which is also what a 2xx
response listing zero guilds yields, so the two are indistinguishable to
the caller. -/
theorem get_guilds_degrades_to_empty :
    (∀ r : Response, is_success r.status = false → get_guilds (Except.ok r) = []) ∧
    (∀ e : String, get_guilds (Except.error e) = []) ∧
    get_guilds (Except.ok ⟨200, some (Json.arr []), ""⟩) = [] := by
  refine ⟨fun r h => ?_, fun e => rfl, rfl⟩
  simp [get_guilds, h]

/-- Witness for C5: a 404 response yields the empty list. -/
theorem get_guilds_degrades_to_empty_witness :
    get_guilds (Except.ok ⟨404, none, "Unauthorized"⟩) = [] :=
  get_guilds_degrades_to_empty.1 ⟨404, none, "Unauthorized"⟩ (by decide)

/-- C9: `check_discord_token` reports success on every 2xx response
regardless of the body — absent, empty or unparseable bodies (modelled
as `jsonBody = none`, replaced by the default `Null`) still yield true. -/
theorem validate_success_ignores_body (status : Nat) (body : Option Json) (txt : String)
    (h1 : 200 ≤ status) (h2 : status ≤ 299) :
    (check_discord_token (Except.ok ⟨status, body, txt⟩)).fst = true := by
  have hs : is_success status = true := by
    simp only [is_success, decide_eq_true_eq]
    omega
  simp [check_discord_token, hs]

/-- Witness for C9: a 204 response with no parseable body validates. -/
theorem validate_success_ignores_body_witness :
    (check_discord_token (Except.ok ⟨204, none, ""⟩)).fst = true :=
  validate_success_ignores_body 204 none "" (by decide) (by decide)

/-- Counterexample to C3: a successful (status 200) listing whose single
object lacks an `id` field returns a Guild whose identifier is the empty
string, so the identifier is not always non-empty. -/
theorem successful_listing_empty_id_cex :
    is_success 200 = true ∧
    get_guilds (Except.ok ⟨200, some (Json.arr [Json.obj [("name", Json.str "G")]]), ""⟩)
      = [Guild.new "" "G"] ∧
    (Guild.new "" "G").id = "" :=
  ⟨by decide, rfl, rfl⟩

/-- C3 as amended: the identifier of each Guild returned by a successful
listing equals the corresponding object's `id` field when that field is
a string, and is the empty string otherwise — so it is non-empty only
when the source object carries a non-empty string `id`. -/
theorem listing_id_from_source_field (status : Nat) (xs : List Json) (txt : String)
    (h1 : 200 ≤ status) (h2 : status ≤ 299) :
    (get_guilds (Except.ok ⟨status, some (Json.arr xs), txt⟩)).map Guild.id
      = xs.map (fun j => (j.index "id").asStr.getD "") := by
  have hs : is_success status = true := by
    simp only [is_success, decide_eq_true_eq]
    omega
  simp [get_guilds, hs, Guild.new, Function.comp]

/-- Witness for C3 as amended: ids come from the `id` fields, empty when
the field is missing. -/
theorem listing_id_from_source_field_witness :
    (get_guilds (Except.ok ⟨200,
        some (Json.arr [Json.obj [("id", Json.str "77")], Json.obj []]), ""⟩)).map Guild.id
      = ["77", ""] := by
  have h := listing_id_from_source_field 200
    [Json.obj [("id", Json.str "77")], Json.obj []] "" (by decide) (by decide)
  rw [h]
  rfl

/-- Counterexample to C6: on a 200 response whose body is an object with
no `username` and no `id`, the logged identity interpolates the JSON
rendering of `Null`, the four-letter text `null` — not an empty string. -/
theorem validate_missing_fields_render_null_cex :
    check_discord_token (Except.ok ⟨200, some (Json.obj []), ""⟩)
      = (true, "Token is valid! Welcome back null (null)") ∧
    (check_discord_token (Except.ok ⟨200, some (Json.obj []), ""⟩)).snd
      ≠ "Token is valid! Welcome back  ()" :=
  ⟨rfl, by decide⟩

/-- C6 as amended: every 2xx validation response reports success, and
the logged identity is the JSON rendering of the parsed body's
`username` and `id` fields — a missing field renders as `null` (not as
an empty string), and a present string field renders quoted. -/
theorem validate_success_identity (status : Nat) (body : Option Json) (txt : String)
    (h1 : 200 ≤ status) (h2 : status ≤ 299) :
    (check_discord_token (Except.ok ⟨status, body, txt⟩)).fst = true ∧
    (check_discord_token (Except.ok ⟨status, body, txt⟩)).snd
      = "Token is valid! Welcome back " ++ ((body.getD Json.null).index "username").render
        ++ " (" ++ ((body.getD Json.null).index "id").render ++ ")" ∧
    (∀ fields, body = some (Json.obj fields) → fields.lookup "username" = none →
      ((body.getD Json.null).index "username").render = "null") ∧
    (∀ fields u, body = some (Json.obj fields) → fields.lookup "username" = some (Json.str u) →
      ((body.getD Json.null).index "username").render = renderString u) := by
  have hs : is_success status = true := by
    simp only [is_success, decide_eq_true_eq]
    omega
  refine ⟨?_, ?_, ?_, ?_⟩
  · simp [check_discord_token, hs]
  · simp [check_discord_token, hs]
  · intro fields hb hl
    subst hb
    simp [Json.index, hl, Json.render]
  · intro fields u hb hl
    subst hb
    simp [Json.index, hl, Json.render]

/-- Witness for C6 as amended: a 200 response with body containing only
an `id` renders the missing username as `null` and the id quoted. -/
theorem validate_success_identity_witness :
    (check_discord_token (Except.ok ⟨200, some (Json.obj [("id", Json.str "7")]), ""⟩)).fst
        = true ∧
    (check_discord_token (Except.ok ⟨200, some (Json.obj [("id", Json.str "7")]), ""⟩)).snd
        = "Token is valid! Welcome back null (\"7\")" := by
  have h := validate_success_identity 200 (some (Json.obj [("id", Json.str "7")])) ""
    (by decide) (by decide)
  exact ⟨h.1, by rw [h.2.1]; rfl⟩

/-- Counterexample to C2: with two listed guilds, input "x" at the
confirmation of guild 0 prints the invalid-input notice but moves on to
guild 1 — the loop does not stay at guild 0. -/
theorem confirm_invalid_input_advances_cex :
    sessionStep ⟨[], fun _ => false⟩
        (SessionState.confirming [Guild.new "1" "G1", Guild.new "2" "G2"] 0) "x"
      = (SessionState.confirming [Guild.new "1" "G1", Guild.new "2" "G2"] 1,
         ["Invalid input! Please try again."]) ∧
    (sessionStep ⟨[], fun _ => false⟩
        (SessionState.confirming [Guild.new "1" "G1", Guild.new "2" "G2"] 0) "x").fst
      ≠ SessionState.confirming [Guild.new "1" "G1", Guild.new "2" "G2"] 0 :=
  ⟨rfl, by decide⟩

/-- C2 as amended: in state ConfirmingGuild(i), any input other than "y"
or "n" prints the invalid-input notice and advances to guild i+1 (or
back to the main menu when i was last), exactly as "y" and "n" do — the
guild is skipped without being re-prompted. -/
theorem confirm_invalid_input_advances (env : Env) (guilds : List Guild) (i : Nat)
    (g : Guild) (input : String) (hg : guilds[i]? = some g)
    (hy : rustTrim input ≠ "y") (hn : rustTrim input ≠ "n") :
    sessionStep env (SessionState.confirming guilds i) input
      = ((if i + 1 < guilds.length then SessionState.confirming guilds (i + 1)
          else SessionState.mainMenu),
         ["Invalid input! Please try again."]) := by
  simp only [sessionStep]
  rw [hg]

/-- Witness for C2 as amended: a lone guild with input "zzz" returns to
the main menu, emitting only the invalid-input notice. -/
theorem confirm_invalid_input_advances_witness :
    sessionStep ⟨[], fun _ => false⟩ (SessionState.confirming [Guild.new "1" "G1"] 0) "zzz"
      = (SessionState.mainMenu, ["Invalid input! Please try again."]) := by
  have h := confirm_invalid_input_advances ⟨[], fun _ => false⟩ [Guild.new "1" "G1"] 0
    (Guild.new "1" "G1") "zzz" rfl (by decide) (by decide)
  simpa using h

/-- C10: a failed leave never aborts the session — when the environment
answers false to the leave of the guild confirmed with "y", the step
prints the failure notice and moves to guild i+1 (or the main menu when
i was last); the session never reaches the terminal state this way. -/
theorem failed_leave_continues (env : Env) (guilds : List Guild) (i : Nat)
    (g : Guild) (input : String) (hg : guilds[i]? = some g)
    (hy : rustTrim input = "y") (hf : env.leaveResult g.id = false) :
    sessionStep env (SessionState.confirming guilds i) input
      = ((if i + 1 < guilds.length then SessionState.confirming guilds (i + 1)
          else SessionState.mainMenu),
         ["Failed to leave guild " ++ g.name ++ "!"]) ∧
    (sessionStep env (SessionState.confirming guilds i) input).fst ≠ SessionState.exited := by
  have heq : sessionStep env (SessionState.confirming guilds i) input
      = ((if i + 1 < guilds.length then SessionState.confirming guilds (i + 1)
          else SessionState.mainMenu),
         ["Failed to leave guild " ++ g.name ++ "!"]) := by
    simp only [sessionStep]
    rw [hg, hy]
    simp [hf]
  refine ⟨heq, ?_⟩
  rw [heq]
  split <;> simp

/-- Witness for C10: with two guilds and a leave that fails, answering
"y" for guild 0 emits the failure notice and advances to guild 1. -/
theorem failed_leave_continues_witness :
    sessionStep ⟨[], fun _ => false⟩
        (SessionState.confirming [Guild.new "1" "G1", Guild.new "2" "G2"] 0) "y"
      = (SessionState.confirming [Guild.new "1" "G1", Guild.new "2" "G2"] 1,
         ["Failed to leave guild G1!"]) := by
  have h := failed_leave_continues ⟨[], fun _ => false⟩
    [Guild.new "1" "G1", Guild.new "2" "G2"] 0 (Guild.new "1" "G1") "y"
    rfl (by decide) rfl
  simpa using h.1

/-- C7: a non-2xx validation response and a transport error both make
`check_discord_token` return false, and startup with a non-empty token
then exits with code 1 having issued exactly the one validation request
(exit terminates the process, so no further requests are ever issued). -/
theorem validate_failure_exits (token : String) (r : Response) (e : String)
    (hne : rustTrim token ≠ "") (hst : is_success r.status = false) :
    (check_discord_token (Except.ok r)).fst = false ∧
    (check_discord_token (Except.error e)).fst = false ∧
    runStartup (some token) none (Except.ok r) = ⟨some 1, 1, none⟩ ∧
    runStartup (some token) none (Except.error e) = ⟨some 1, 1, none⟩ := by
  have hc : (check_discord_token (Except.ok r)).fst = false := by
    simp [check_discord_token, hst]
  have hc2 : (check_discord_token (Except.error e)).fst = false := rfl
  refine ⟨hc, hc2, ?_, ?_⟩
  · simp [runStartup, loadToken, hne, hc]
  · simp [runStartup, loadToken, hne, hc2]

/-- Witness for C7: the end-to-end scenario — credential "abc" and a 401
validation response exit with code 1 after the single request. -/
theorem validate_failure_exits_witness :
    (check_discord_token (Except.ok ⟨401, none, "401: Unauthorized"⟩)).fst = false ∧
    runStartup (some "abc") none (Except.ok ⟨401, none, "401: Unauthorized"⟩)
      = ⟨some 1, 1, none⟩ := by
  have h := validate_failure_exits "abc" ⟨401, none, "401: Unauthorized"⟩ "conn reset"
    (by decide) (by decide)
  exact ⟨h.1, h.2.2.1⟩

/-- C8: the credential is the first positional argument when present and
the `token.txt` contents otherwise (empty when even the file read
fails); when the loaded value trims to empty, startup exits with code 1
having issued zero requests; and whenever startup proceeds, the token it
validates is the trimmed loaded value. -/
theorem startup_token_loading (arg fileContents : Option String) (a f : String)
    (resp : HttpOutcome) (hempty : rustTrim (loadToken arg fileContents) = "") :
    loadToken (some a) fileContents = a ∧
    loadToken none (some f) = f ∧
    loadToken none none = "" ∧
    runStartup arg fileContents resp = ⟨some 1, 0, none⟩ ∧
    (∀ arg2 file2 resp2, (runStartup arg2 file2 resp2).token = none ∨
      (runStartup arg2 file2 resp2).token = some (rustTrim (loadToken arg2 file2))) := by
  refine ⟨rfl, rfl, rfl, ?_, ?_⟩
  · simp [runStartup, hempty]
  · intro arg2 file2 resp2
    simp only [runStartup]
    split
    · left
      rfl
    · split
      · right
        rfl
      · left
        rfl

/-- Witness for C8: a whitespace-only argument exits before any request;
the precedence and trimming equations hold at concrete values. -/
theorem startup_token_loading_witness :
    loadToken (some "tokA") (some "fileT") = "tokA" ∧
    runStartup (some "   ") (some "fileT") (Except.error "never sent") = ⟨some 1, 0, none⟩ := by
  have h := startup_token_loading (some "   ") (some "fileT") "tokA" "fileT"
    (Except.error "never sent") (by decide)
  exact ⟨h.1, h.2.2.2.1⟩
